import Mathlib

/-!
Verification of `easy_thumbnails/VIL/Image.py` — a PIL-compatible facade over an
SVG canvas/DOM.

Modelling choices (shallow embedding of the Python source):

* Python floats are modelled as rationals (`ℚ`); all arithmetic in the source
  (subtraction, division, the aspect-ratio comparison) is exact on the inputs
  used by the spec's examples, so the rational model agrees with the float
  semantics there.
* The external DOM documents (`self.canvas.svg`) live in an explicit `Store`
  (a heap of documents addressed by `Nat` ids), so that `cloneNode(True)`
  (deep clone, fresh node) and `setAttribute` (in-place mutation of one node)
  have their Python aliasing behaviour; independence of a handle's document
  from its parent's after `resize`/`crop` is then a real statement.
* Python exceptions are an explicit `PyErr` error monad (`Except`); Python's
  float division raises `ZeroDivisionError` on a zero divisor, modelled by
  `pydiv`.
* The `viewBox` attribute string is modelled as its parsed list of numbers
  (the source round-trips it through `'{0} {1} {2} {3}'.format` and
  `float(b) for b in ....split()`); the `width`/`height` attributes as the
  numeric value the format string selects (`pyFormatSelect i args` models
  `'{i}'.format(*args)`).
* External collaborators (reportlab's fresh `SVGCanvas` document, `svg2rlg`,
  `renderSVG.draw`, `Path.resolve`) are opaque: `blankDoc` stands for the
  fresh canvas document (no theorem depends on its contents), and `load` is
  parametrised by the parser and the path-resolver.
-/

namespace VIL

/-- The Python exceptions the module can raise (all subclasses of `Exception`).
`exception` stands for an arbitrary exception raised by an external callable. -/
inductive PyErr where
  | valueError
  | runtimeError
  | typeError
  | assertionError
  | attributeError
  | zeroDivisionError
  | indexError
  | osError
  | exception
  deriving DecidableEq, Repr

/-- Python division on floats: raises `ZeroDivisionError` when the divisor is zero. -/
def pydiv (a b : ℚ) : Except PyErr ℚ :=
  if b = 0 then .error .zeroDivisionError else .ok (a / b)

/-- Result of the external SVG parser `svg2rlg`: a drawing with declared
width and height. -/
structure Drawing where
  width : ℚ
  height : ℚ
  deriving DecidableEq, Repr

/-- One DOM document (`canvas.svg`): its `viewBox` attribute (as the parsed
number list) and its `width`/`height` attributes (as the formatted value, when
set). -/
structure SvgDoc where
  viewBox : List ℚ
  widthAttr : Option ℚ
  heightAttr : Option ℚ
  deriving DecidableEq, Repr

instance : Inhabited SvgDoc := ⟨⟨[], none, none⟩⟩

/-- The canvas of a handle: a reference into the document store, the fill
color set by `setFillColor` (an RGB/RGBA component list), and the drawing
rendered onto it by `renderSVG.draw`, if any. -/
structure Canvas where
  svgId : Nat
  fillColor : Option (List ℚ)
  rendered : Option Drawing
  deriving DecidableEq, Repr

/-- The `Image` handle: its `size` pair and its canvas. -/
structure Image where
  size : ℚ × ℚ
  canvas : Canvas
  deriving DecidableEq, Repr

/-- The heap of DOM documents; `cloneNode(True)` allocates, `setAttribute`
mutates in place. -/
structure Store where
  docs : List SvgDoc
  deriving DecidableEq, Repr

def Store.get (s : Store) (id : Nat) : SvgDoc := s.docs.getD id default

def Store.alloc (s : Store) (d : SvgDoc) : Store × Nat :=
  (⟨s.docs ++ [d]⟩, s.docs.length)

def Store.set (s : Store) (id : Nat) (d : SvgDoc) : Store :=
  ⟨s.docs.set id d⟩

/-- `node.cloneNode(True)`: a deep copy of the document, allocated fresh. -/
def cloneNode (s : Store) (id : Nat) : Store × Nat :=
  s.alloc (s.get id)

/-- The document of a freshly allocated `renderSVG.SVGCanvas(size=size)`.
External collaborator: no theorem below depends on its contents. -/
def blankDoc (size : ℚ × ℚ) : SvgDoc :=
  { viewBox := [0, 0, size.1, size.2], widthAttr := none, heightAttr := none }

/-- The body of `Image.__init__` after its assertion has passed: allocate a
fresh canvas document and record `size`. The assertion's content (a two-element
numeric pair) is carried by the type `ℚ × ℚ`. -/
def Image.construct (size : ℚ × ℚ) (s : Store) : Store × Image :=
  let (s1, id) := s.alloc (blankDoc size)
  (s1, { size := size, canvas := { svgId := id, fillColor := none, rendered := none } })

/-- A dynamically-typed Python value, as far as `Image.__init__`'s assertion
inspects it: a tuple/list of numbers, or anything else. -/
inductive PyVal where
  | tup (xs : List ℚ)
  | other
  deriving DecidableEq, Repr

/-- `Image.__init__(self, size)` including its assertion: `size` must be a
list/tuple of exactly two numbers, else `AssertionError`. -/
def Image.init (size : PyVal) (s : Store) : Except PyErr (Store × Image) :=
  match size with
  | .tup [w, h] => .ok (Image.construct (w, h) s)
  | _ => .error .assertionError

/-- `Image.width`: first projection of `size`. -/
def Image.width (im : Image) : ℚ := im.size.1

/-- `Image.height`: second projection of `size`. -/
def Image.height (im : Image) : ℚ := im.size.2

/-- `Image.getbbox()`: the numbers parsed from the document's `viewBox`
attribute. -/
def Image.getbbox (im : Image) (s : Store) : List ℚ :=
  (s.get im.canvas.svgId).viewBox

/-- `Image.resize(size)`: a fresh handle of the given size whose document is a
deep clone of the source's (the fresh canvas document from the constructor is
discarded, as in the source). -/
def Image.resize (im : Image) (size : ℚ × ℚ) (s : Store) : Store × Image :=
  let (s1, copy) := Image.construct size s
  let (s2, cid) := cloneNode s1 im.canvas.svgId
  (s2, { copy with canvas := { copy.canvas with svgId := cid } })

/-- `Image.convert(*args)`: no-op. -/
def Image.convert (im : Image) : Image := im

/-- `Image.filter(*args)`: no-op. -/
def Image.filter (im : Image) : Image := im

/-- `'{i}'.format(*args)`: the decimal rendering of positional argument `i`,
modelled as the selected value. -/
def pyFormatSelect (i : Nat) (args : List ℚ) : Option ℚ :=
  args[i]?

/-- The bounding-box arithmetic of `Image.crop` on the parsed `bbox` numbers
and the box `(l, u, r, lo)`: compare the current and the requested aspect
ratios; shrink width re-centering horizontally when the current ratio exceeds
the requested one, else shrink height re-centering vertically. Fewer than four
bounding-box numbers raise `IndexError` (Python's `bbox[2]`/`bbox[3]`); each
division can raise `ZeroDivisionError`. -/
def cropBBox (bbox : List ℚ) (l u r lo : ℚ) : Except PyErr (List ℚ) :=
  match bbox with
  | b0 :: b1 :: b2 :: b3 :: _ => do
    let cur ← pydiv (b2 - b0) (b3 - b1)
    let want ← pydiv (r - l) (lo - u)
    if cur > want then
      pure [b0 + (b2 - want * b3) / 2, b1, want * b3, b3]
    else do
      let nh ← pydiv b2 want
      pure [b0, b1 + (b3 - nh) / 2, b2, nh]
  | _ => .error .indexError

/-- `Image.crop(box)`: clone the document; when a (truthy, hence non-empty)
`box = (l, u, r, lo)` is given, read the source's bounding box, run the
aspect-ratio arithmetic (`cropBBox`), and write the resulting rectangle and
the new size onto the clone via `setAttribute`. -/
def Image.crop (im : Image) (box : Option (ℚ × ℚ × ℚ × ℚ)) (s : Store) :
    Except PyErr (Store × Image) :=
  let (s1, copy0) := Image.construct im.size s
  let (s2, cid) := cloneNode s1 im.canvas.svgId
  let copy := { copy0 with canvas := { copy0.canvas with svgId := cid } }
  match box with
  | none => .ok (s2, copy)
  | some (l, u, r, lo) => do
    let newBBox ← cropBBox (Image.getbbox im s2) l u r lo
    let newSize : ℚ × ℚ := (r - l, lo - u)
    let cdoc := Store.get s2 cid
    let cdoc := { cdoc with
      viewBox := newBBox,
      widthAttr := pyFormatSelect 0 [newSize.1, newSize.2],
      heightAttr := pyFormatSelect 1 [newSize.1, newSize.2] }
    .ok (Store.set s2 cid cdoc, { copy with size := newSize })

/-- The `fp` attribute on a handle: never set by `__init__` (attribute
absent, so `self.fp` raises `AttributeError`), `None`, or an open file whose
`close()` either succeeds or raises. -/
inductive FpAttr where
  | absent
  | pyNone
  | file (closeRaises : Bool)
  deriving DecidableEq, Repr

/-- The `map`/`im` attributes: absent, `None`, or holding some reference. -/
inductive RefAttr where
  | absent
  | pyNone
  | ref
  deriving DecidableEq, Repr

/-- The attribute footprint of `Image.close`: whether a `_close__fp` hook is
present (and whether calling it raises), and the `fp`, `map` and `im`
attributes. The rest of the handle is untouched by `close`. -/
structure CloseState where
  hasCloseHook : Bool
  hookRaises : Bool
  fp : FpAttr
  map : RefAttr
  im : RefAttr
  deriving DecidableEq, Repr

/-- The `try:` body of `Image.close`: call the `_close__fp` hook when present
(it may raise), then `self.fp.close()` (an absent attribute or `None` raises
`AttributeError`, a failing close raises), then `self.fp = None`. -/
def closeTryBody (st : CloseState) : Except PyErr CloseState :=
  if st.hasCloseHook && st.hookRaises then .error .exception
  else
    match st.fp with
    | .absent => .error .attributeError
    | .pyNone => .error .attributeError
    | .file closeRaises =>
      if closeRaises then .error .osError
      else .ok { st with fp := .pyNone }

/-- `Image.close()`: the `try:` body with `except Exception: pass` (every
`PyErr` models an `Exception` subclass, so all are swallowed), then
`self.map = None` and `self.im = None`. -/
def Image.close (st : CloseState) : Except PyErr CloseState :=
  let st1 := match closeTryBody st with
    | .ok s1 => s1
    | .error _ => st
  .ok { st1 with map := .pyNone, im := .pyNone }

/-- Split a character list at a separator (model of `str.split(sep)` /
path-component splitting). -/
def splitOnChar (c : Char) : List Char → List (List Char)
  | [] => [[]]
  | x :: xs =>
    let rest := splitOnChar c xs
    if x = c then [] :: rest
    else
      match rest with
      | [] => [[x]]
      | y :: ys => (x :: y) :: ys

/-- `pathlib.Path(filename).name`: the last non-empty path component. -/
def pathName (filename : String) : List Char :=
  (((splitOnChar '/' filename.toList).filter (fun p => p ≠ [])).getLast?).getD []

/-- `pathlib.Path(filename).suffix`: from the last dot of the name, provided
that dot is neither the first nor the last character of the name. -/
def pathSuffix (filename : String) : String :=
  let cs := pathName filename
  let dotIdxs := (List.range cs.length).filter (fun i => cs.getD i ' ' = '.')
  match dotIdxs.getLast? with
  | some i => if 0 < i ∧ i + 1 < cs.length then String.mk (cs.drop i) else ""
  | none => ""

/-- `str.lower()`. -/
def pyLower (s : String) : String :=
  String.mk (s.toList.map Char.toLower)

/-- The `fp` argument of `Image.save`: a path string, a `pathlib.Path`, or a
file object with an optional `name` attribute. (Byte-string filenames are not
modelled.) -/
inductive SaveFp where
  | pathStr (s : String)
  | pathObj (s : String)
  | fileObj (name : Option String)
  deriving DecidableEq, Repr

/-- The filename `Image.save` derives from `fp`: the path itself, or the file
object's `name` (else `""`). -/
def saveFilename (fp : SaveFp) : String :=
  match fp with
  | .pathStr s => s
  | .pathObj s => s
  | .fileObj name => name.getD ""

/-- Whether `Image.save` opens the filename itself (`open_fp`): true exactly
when `fp` is a path. -/
def saveOpensPath (fp : SaveFp) : Bool :=
  match fp with
  | .pathStr _ => true
  | .pathObj _ => true
  | .fileObj _ => false

/-- The observable effect of a successful `Image.save`: the path opened with
`"w+b"` (when a path was given) and the id of the document serialized by
`writexml`. -/
structure SaveOutcome where
  openedBinary : Option String
  wroteDoc : Nat
  deriving DecidableEq, Repr

/-- `Image.save(fp, format)`: derive the filename and its lowered suffix;
raise `ValueError` when the format is not `'SVG'` and the suffix is not
`'.svg'`; otherwise open the path for binary write (when a path was given) and
write the document as XML. -/
def Image.save (im : Image) (fp : SaveFp) (format : Option String) :
    Except PyErr SaveOutcome :=
  let filename := saveFilename fp
  let suffix := pyLower (pathSuffix filename)
  if format ≠ some "SVG" ∧ suffix ≠ ".svg" then .error .valueError
  else .ok { openedBinary := if saveOpensPath fp then some filename else none,
             wroteDoc := im.canvas.svgId }

/-- `new(self, size, color=None)`, with Python call semantics for the
positional arguments: the source's signature takes a (unused) leading `self`
parameter before `size`, so fewer or more than two positional arguments raise
`TypeError`. `size` goes through `Image.__init__`'s assertion; a truthy
`color` (a non-empty tuple) sets the canvas fill color. -/
def new (posArgs : List PyVal) (color : Option (List ℚ)) (s : Store) :
    Except PyErr (Store × Image) :=
  match posArgs with
  | [_self, sizeArg] =>
    match Image.init sizeArg s with
    | .error e => .error e
    | .ok (s1, im) =>
      let im1 :=
        match color with
        | some c =>
          if c.isEmpty then im
          else { im with canvas := { im.canvas with fillColor := some c } }
        | none => im
      .ok (s1, im1)
  | _ => .error .typeError

/-- The `fp` argument of `load`: a `pathlib.Path`, a path string, an
in-memory text buffer (`io.StringIO`), or any other object. -/
inductive LoadFp where
  | pathObj (s : String)
  | strPath (s : String)
  | stringBuf
  | otherObj
  deriving DecidableEq, Repr

/-- The tail of `load` once a filename is known: run the external parser
(`svg2rlg`); `None` means no handle is produced (`load` returns `None`);
otherwise build a handle sized to the drawing's declared width/height and
render the drawing onto its canvas (`renderSVG.draw`). -/
def loadFromFile (svg2rlg : String → Option Drawing) (filename : String)
    (s : Store) : Except PyErr (Store × Option Image) :=
  match svg2rlg filename with
  | none => .ok (s, none)
  | some drawing =>
    let (s1, im) := Image.construct (drawing.width, drawing.height) s
    .ok (s1, some { im with canvas := { im.canvas with rendered := some drawing } })

/-- `load(fp, mode='r')`: `ValueError` for a mode other than `'r'`, then
`ValueError` for a `StringIO` source, then dispatch on the source type — a
`Path` is resolved (`resolve` models `Path.resolve`), a string is used as-is,
anything else raises `RuntimeError`. -/
def load (svg2rlg : String → Option Drawing) (resolve : String → String)
    (fp : LoadFp) (mode : String) (s : Store) :
    Except PyErr (Store × Option Image) :=
  if mode ≠ "r" then .error .valueError
  else if fp = .stringBuf then .error .valueError
  else
    match fp with
    | .pathObj p => loadFromFile svg2rlg (resolve p) s
    | .strPath p => loadFromFile svg2rlg p s
    | _ => .error .runtimeError

/-- A concrete handle used by the witnesses: one document whose `viewBox` is
`0 0 100 100`. -/
def demoStore : Store :=
  ⟨[{ viewBox := [0, 0, 100, 100], widthAttr := none, heightAttr := none }]⟩

/-- The handle owning `demoStore`'s document; its bounding box is
`(0, 0, 100, 100)`. -/
def demoImage : Image :=
  { size := (100, 100), canvas := { svgId := 0, fillColor := none, rendered := none } }

/-- A store whose single document has a degenerate bounding box
`(0, 0, 0, 100)` (zero width, nonzero height). -/
def degenStore : Store :=
  ⟨[{ viewBox := [0, 0, 0, 100], widthAttr := none, heightAttr := none }]⟩

/-- The handle owning `degenStore`'s document. -/
def degenImage : Image :=
  { size := (100, 100), canvas := { svgId := 0, fillColor := none, rendered := none } }

/-- Observer: the `viewBox` of the document of the handle `crop` returns
(`none` when `crop` raises). -/
def cropViewBoxAt (im : Image) (box : Option (ℚ × ℚ × ℚ × ℚ)) (s : Store) :
    Option (List ℚ) :=
  match Image.crop im box s with
  | .ok (s2, im2) => some (Store.get s2 im2.canvas.svgId).viewBox
  | .error _ => none

/-- Observer: the `size` of the handle `crop` returns. -/
def cropSizeAt (im : Image) (box : Option (ℚ × ℚ × ℚ × ℚ)) (s : Store) :
    Option (ℚ × ℚ) :=
  match Image.crop im box s with
  | .ok (_, im2) => some im2.size
  | .error _ => none

/-- Observer: the `width` attribute of the document of the handle `crop`
returns. -/
def cropWidthAttrAt (im : Image) (box : Option (ℚ × ℚ × ℚ × ℚ)) (s : Store) :
    Option (Option ℚ) :=
  match Image.crop im box s with
  | .ok (s2, im2) => some (Store.get s2 im2.canvas.svgId).widthAttr
  | .error _ => none

/-- Observer: the `height` attribute of the document of the handle `crop`
returns. -/
def cropHeightAttrAt (im : Image) (box : Option (ℚ × ℚ × ℚ × ℚ)) (s : Store) :
    Option (Option ℚ) :=
  match Image.crop im box s with
  | .ok (s2, im2) => some (Store.get s2 im2.canvas.svgId).heightAttr
  | .error _ => none

/-- Observer: the `size` of the handle `Image.__init__` produces. -/
def initSizeAt (v : PyVal) (s : Store) : Option (ℚ × ℚ) :=
  match Image.init v s with
  | .ok (_, im) => some im.size
  | .error _ => none

/-- Observer: the `size` and fill color of the handle `new` produces. -/
def newResultAt (posArgs : List PyVal) (color : Option (List ℚ)) (s : Store) :
    Option ((ℚ × ℚ) × Option (List ℚ)) :=
  match new posArgs color s with
  | .ok (_, im) => some (im.size, im.canvas.fillColor)
  | .error _ => none

/-- Observer: the result of `load` — `some none` when `load` returns `None`,
`some (some (size, rendered))` for a handle, `none` when `load` raises. -/
def loadResultAt (svg2rlg : String → Option Drawing) (resolve : String → String)
    (fp : LoadFp) (mode : String) (s : Store) :
    Option (Option ((ℚ × ℚ) × Option Drawing)) :=
  match load svg2rlg resolve fp mode s with
  | .ok (_, oim) => some (oim.map fun im => (im.size, im.canvas.rendered))
  | .error _ => none

/-! ## Helper lemmas -/

theorem pydiv_ok (a : ℚ) {b : ℚ} (h : b ≠ 0) : pydiv a b = .ok (a / b) := by
  simp [pydiv, h]

theorem Store.get_mk_append_of_lt (s : Store) (ds : List SvgDoc) {id : Nat}
    (h : id < s.docs.length) : Store.get ⟨s.docs ++ ds⟩ id = Store.get s id := by
  unfold Store.get
  exact List.getD_append _ _ _ _ h

theorem Store.get_set_self (s : Store) {id : Nat} (h : id < s.docs.length) (d : SvgDoc) :
    Store.get (Store.set s id d) id = d := by
  unfold Store.get Store.set
  simp [List.getD_eq_getElem?_getD, List.getElem?_set_eq_of_lt _ h]

theorem Store.get_set_ne (s : Store) {id id2 : Nat} (h : id ≠ id2) (d : SvgDoc) :
    Store.get (Store.set s id d) id2 = Store.get s id2 := by
  unfold Store.get Store.set
  simp [List.getD_eq_getElem?_getD, List.getElem?_set_ne h]

theorem getbbox_mk_append (im : Image) (s : Store) (ds : List SvgDoc)
    (h : im.canvas.svgId < s.docs.length) :
    Image.getbbox im ⟨s.docs ++ ds⟩ = Image.getbbox im s := by
  simp only [Image.getbbox]
  rw [Store.get_mk_append_of_lt s ds h]

/-- The value of `cropBBox` on a four-number bounding box, when neither ratio
division fails. -/
theorem cropBBox_spec (l u r lo b0 b1 b2 b3 : ℚ) (rest : List ℚ)
    (hbh : b3 - b1 ≠ 0) (hxh : lo - u ≠ 0)
    (hbr : (r - l) / (lo - u) ≠ 0 ∨ (b2 - b0) / (b3 - b1) > (r - l) / (lo - u)) :
    cropBBox (b0 :: b1 :: b2 :: b3 :: rest) l u r lo =
      .ok (if (b2 - b0) / (b3 - b1) > (r - l) / (lo - u) then
        [b0 + (b2 - ((r - l) / (lo - u)) * b3) / 2, b1, ((r - l) / (lo - u)) * b3, b3]
      else
        [b0, b1 + (b3 - b2 / ((r - l) / (lo - u))) / 2, b2, b2 / ((r - l) / (lo - u))]) := by
  simp only [cropBBox]
  rw [pydiv_ok _ hbh, pydiv_ok _ hxh]
  simp only [bind, Except.bind]
  by_cases hc : (b2 - b0) / (b3 - b1) > (r - l) / (lo - u)
  · rw [if_pos hc, if_pos hc]
    rfl
  · rw [if_neg hc, if_neg hc, pydiv_ok _ (hbr.resolve_right hc)]
    simp only [bind, Except.bind]
    rfl

/-- The full effect of `Image.crop` with a box, under the hypotheses that the
handle's document is live in the store, its bounding box has four numbers, and
no division fails: the result handle owns the freshly cloned document (index
`length + 1`; the constructor's blank document sits at `length`), that clone
carries the recomputed `viewBox` and the formatted `width`/`height`
attributes, the new size is the box's width/height pair, and the source
handle's document is untouched. -/
theorem crop_box_spec (s : Store) (im : Image) (l u r lo b0 b1 b2 b3 : ℚ)
    (hwf : im.canvas.svgId < s.docs.length)
    (hbb : Image.getbbox im s = [b0, b1, b2, b3])
    (hbh : b3 - b1 ≠ 0) (hxh : lo - u ≠ 0)
    (hbr : (r - l) / (lo - u) ≠ 0 ∨ (b2 - b0) / (b3 - b1) > (r - l) / (lo - u)) :
    ∃ s2 im2,
      Image.crop im (some (l, u, r, lo)) s = .ok (s2, im2) ∧
      im2.size = (r - l, lo - u) ∧
      im2.canvas.svgId = s.docs.length + 1 ∧
      Store.get s2 im2.canvas.svgId =
        { viewBox :=
            if (b2 - b0) / (b3 - b1) > (r - l) / (lo - u) then
              [b0 + (b2 - ((r - l) / (lo - u)) * b3) / 2, b1, ((r - l) / (lo - u)) * b3, b3]
            else
              [b0, b1 + (b3 - b2 / ((r - l) / (lo - u))) / 2, b2, b2 / ((r - l) / (lo - u))],
          widthAttr := pyFormatSelect 0 [r - l, lo - u],
          heightAttr := pyFormatSelect 1 [r - l, lo - u] } ∧
      Store.get s2 im.canvas.svgId = Store.get s im.canvas.svgId := by
  have hwf1 : im.canvas.svgId < (Store.mk (s.docs ++ [blankDoc im.size])).docs.length := by
    simp only [List.length_append, List.length_singleton]
    omega
  have hlen : (s.docs ++ [blankDoc im.size]).length = s.docs.length + 1 := by simp
  have hne : s.docs.length + 1 ≠ im.canvas.svgId := by omega
  simp only [Image.crop, Image.construct, cloneNode, Store.alloc]
  rw [getbbox_mk_append im ⟨s.docs ++ [blankDoc im.size]⟩ _ hwf1,
    getbbox_mk_append im s _ hwf, hbb]
  rw [show ([b0, b1, b2, b3] : List ℚ) = b0 :: b1 :: b2 :: b3 :: [] from rfl,
    cropBBox_spec l u r lo b0 b1 b2 b3 [] hbh hxh hbr]
  simp only [bind, Except.bind]
  refine ⟨_, _, rfl, rfl, by simp, ?_, ?_⟩
  · rw [hlen]
    rw [Store.get_set_self _ (by simp) _]
  · rw [hlen, Store.get_set_ne _ hne, List.append_assoc,
      Store.get_mk_append_of_lt s _ hwf]

theorem Store.get_mk_append_self (l : List SvgDoc) (d : SvgDoc) :
    Store.get ⟨l ++ [d]⟩ l.length = d := by
  unfold Store.get
  rw [List.getD_append_right _ _ _ _ (Nat.le_refl _)]
  simp

/-- Whenever `Image.crop` succeeds, the handle it returns owns the freshly
cloned document (`length + 1`), and every document that was live in the store
before the call — in particular the source handle's — is unchanged. -/
theorem crop_ok_source_untouched (im : Image) (box : Option (ℚ × ℚ × ℚ × ℚ)) (s : Store)
    (s2 : Store) (im2 : Image) (hok : Image.crop im box s = .ok (s2, im2)) :
    im2.canvas.svgId = s.docs.length + 1 ∧
    ∀ id, id < s.docs.length → Store.get s2 id = Store.get s id := by
  cases box with
  | none =>
    simp only [Image.crop, Image.construct, cloneNode, Store.alloc, Except.ok.injEq,
      Prod.mk.injEq] at hok
    obtain ⟨hs, hi⟩ := hok
    subst hs hi
    refine ⟨by simp, fun id hid => ?_⟩
    rw [List.append_assoc, Store.get_mk_append_of_lt s _ hid]
  | some b =>
    obtain ⟨l, u, r, lo⟩ := b
    simp only [Image.crop, Image.construct, cloneNode, Store.alloc, bind, Except.bind] at hok
    split at hok
    · exact absurd hok (by simp)
    · simp only [Except.ok.injEq, Prod.mk.injEq] at hok
      obtain ⟨hs, hi⟩ := hok
      subst hs hi
      refine ⟨by simp, fun id hid => ?_⟩
      have hne : (s.docs ++ [blankDoc im.size]).length ≠ id := by
        simp only [List.length_append, List.length_singleton]
        omega
      rw [Store.get_set_ne _ hne, List.append_assoc, Store.get_mk_append_of_lt s _ hid]

/-- `cropBBox` raises `ZeroDivisionError` whenever the box's height
`lo - u` is zero (either the first ratio division fails already, or the
second one does). -/
theorem cropBBox_zero_box_height (l u r lo b0 b1 b2 b3 : ℚ) (h : lo - u = 0)
    (rest : List ℚ) :
    cropBBox (b0 :: b1 :: b2 :: b3 :: rest) l u r lo = .error .zeroDivisionError := by
  simp only [cropBBox]
  by_cases hb : b3 - b1 = 0
  · simp [pydiv, hb, bind, Except.bind]
  · rw [pydiv_ok _ hb]
    simp [pydiv, h, bind, Except.bind]

/-! ## Claim theorems -/

/-- C1: for every handle and every crop box `(l, u, r, lo)` on which the
divisions are defined, `crop(box)` computes the current aspect ratio from the
existing bounding box and the requested ratio from the box; when the current
ratio exceeds the requested one it sets `new_width = requested_ratio *
current_bottom`, offsets the left edge by `(current_right - new_width) / 2`
and sets the right bound to `new_width`; otherwise it sets `new_height =
current_right / requested_ratio`, offsets the upper edge by
`(current_bottom - new_height) / 2` and sets the lower bound to `new_height`;
the resulting rectangle becomes the cloned document's view-box and the new
handle's size becomes `(box[2] - box[0], box[3] - box[1])`. -/
theorem crop_box_aspect_ratio_semantics (s : Store) (im : Image)
    (l u r lo b0 b1 b2 b3 : ℚ)
    (hwf : im.canvas.svgId < s.docs.length)
    (hbb : Image.getbbox im s = [b0, b1, b2, b3])
    (hbh : b3 - b1 ≠ 0) (hxh : lo - u ≠ 0)
    (hbr : (r - l) / (lo - u) ≠ 0 ∨ (b2 - b0) / (b3 - b1) > (r - l) / (lo - u)) :
    ∃ s2 im2,
      Image.crop im (some (l, u, r, lo)) s = .ok (s2, im2) ∧
      (Store.get s2 im2.canvas.svgId).viewBox =
        (if (b2 - b0) / (b3 - b1) > (r - l) / (lo - u) then
          [b0 + (b2 - ((r - l) / (lo - u)) * b3) / 2, b1, ((r - l) / (lo - u)) * b3, b3]
        else
          [b0, b1 + (b3 - b2 / ((r - l) / (lo - u))) / 2, b2, b2 / ((r - l) / (lo - u))]) ∧
      im2.size = (r - l, lo - u) := by
  obtain ⟨s2, im2, h1, h2, h3, h4, h5⟩ :=
    crop_box_spec s im l u r lo b0 b1 b2 b3 hwf hbb hbh hxh hbr
  exact ⟨s2, im2, h1, by rw [h4], h2⟩

/-- C1 witness: `crop((0, 0, 50, 100))` on a handle whose bounding box is
`(0, 0, 100, 100)` takes the shrink-width branch, giving view-box
`25 0 50 100` (width slot `50`, left edge `25`) and size `(50, 100)`. -/
theorem crop_box_aspect_ratio_semantics_witness :
    cropViewBoxAt demoImage (some (0, 0, 50, 100)) demoStore = some [25, 0, 50, 100] ∧
    cropSizeAt demoImage (some (0, 0, 50, 100)) demoStore = some (50, 100) := by
  obtain ⟨s2, im2, h1, h2, h3⟩ :=
    crop_box_aspect_ratio_semantics demoStore demoImage 0 0 50 100 0 0 100 100
      (by decide) rfl (by norm_num) (by norm_num) (Or.inr (by norm_num))
  unfold cropViewBoxAt cropSizeAt
  rw [h1]
  constructor
  · show some (Store.get s2 im2.canvas.svgId).viewBox = some [25, 0, 50, 100]
    rw [h2, if_pos (by norm_num)]
    norm_num
  · show some im2.size = some (50, 100)
    rw [h3]
    norm_num

/-- C2 counterexample: calling `new` with the size pair as its **first**
positional argument raises `TypeError` (the source's signature is
`new(self, size, color=None)`, so the pair binds to the spurious `self`
parameter and `size` is missing); no handle with size `(10, 20)` and a red
fill is produced. -/
theorem new_missing_size_counterexample :
    new [.tup [10, 20]] (some [255, 0, 0]) ⟨[]⟩ = .error .typeError ∧
    (Except.error .typeError ≠
      (.ok (⟨[blankDoc (10, 20)]⟩,
        { size := (10, 20),
          canvas := { svgId := 0, fillColor := some [255, 0, 0], rendered := none } }) :
        Except PyErr (Store × Image))) := by
  constructor
  · rfl
  · intro h
    exact Except.noConfusion h

/-- C2 amended: `new` requires an extra leading positional argument (the
source's unused `self` parameter) before `size`; called with any value there,
a two-number size pair, and a non-empty color tuple, it returns a blank
handle of that size with the canvas fill color set to the color. -/
theorem new_with_leading_self_argument (selfArg : PyVal) (w h : ℚ) (c : List ℚ)
    (s : Store) (hc : c ≠ []) :
    ∃ s1 im, new [selfArg, .tup [w, h]] (some c) s = .ok (s1, im) ∧
      im.size = (w, h) ∧ im.canvas.fillColor = some c := by
  have hce : c.isEmpty = false := by
    simpa [List.isEmpty_iff] using hc
  refine ⟨⟨s.docs ++ [blankDoc (w, h)]⟩,
    { size := (w, h),
      canvas := { svgId := s.docs.length, fillColor := some c, rendered := none } },
    ?_, rfl, rfl⟩
  simp [new, Image.init, Image.construct, Store.alloc, hce]

/-- C2 witness: `new(_, (10, 20), color=(255, 0, 0))` yields a handle with
size `(10, 20)` and fill color `(255, 0, 0)`. -/
theorem new_with_leading_self_argument_witness :
    newResultAt [.other, .tup [10, 20]] (some [255, 0, 0]) ⟨[]⟩ =
      some ((10, 20), some [255, 0, 0]) := by
  obtain ⟨s1, im, h1, h2, h3⟩ :=
    new_with_leading_self_argument .other 10 20 [255, 0, 0] ⟨[]⟩ (by simp)
  unfold newResultAt
  rw [h1]
  show some (im.size, im.canvas.fillColor) = some ((10, 20), some [255, 0, 0])
  rw [h2, h3]

/-- C3 counterexample: in `crop((0, 0, 50, 100))` on the demo handle the
height attribute written onto the clone is `100` — the height value of the
new size `(50, 100)` — not the width value `50` as the claim states, so the
height attribute is not formatted from the width value. -/
theorem crop_height_attr_counterexample :
    cropHeightAttrAt demoImage (some (0, 0, 50, 100)) demoStore = some (some 100) ∧
    cropWidthAttrAt demoImage (some (0, 0, 50, 100)) demoStore = some (some 50) ∧
    (some (100:ℚ) ≠ some (50:ℚ)) := by
  refine ⟨?_, ?_, by norm_num⟩ <;>
    norm_num [cropHeightAttrAt, cropWidthAttrAt, Image.crop, Image.construct, cloneNode,
      Store.alloc, Store.get, Store.set, Image.getbbox, blankDoc, cropBBox, pydiv,
      pyFormatSelect, demoStore, demoImage, bind, Except.bind, pure, Except.pure]

/-- C3 amended: the width and height attributes are written with two
different format strings (`'{0}'` and `'{1}'`), but each selects the correct
positional value of the size pair: the width attribute carries
`size[0] = box[2] - box[0]` and the height attribute carries
`size[1] = box[3] - box[1]`, so both dimensions are formatted correctly
(from their own values), merely with inconsistent format-string style. -/
theorem crop_attr_format_semantics (s : Store) (im : Image) (l u r lo b0 b1 b2 b3 : ℚ)
    (hwf : im.canvas.svgId < s.docs.length)
    (hbb : Image.getbbox im s = [b0, b1, b2, b3])
    (hbh : b3 - b1 ≠ 0) (hxh : lo - u ≠ 0)
    (hbr : (r - l) / (lo - u) ≠ 0 ∨ (b2 - b0) / (b3 - b1) > (r - l) / (lo - u)) :
    ∃ s2 im2,
      Image.crop im (some (l, u, r, lo)) s = .ok (s2, im2) ∧
      (Store.get s2 im2.canvas.svgId).widthAttr = pyFormatSelect 0 [r - l, lo - u] ∧
      (Store.get s2 im2.canvas.svgId).heightAttr = pyFormatSelect 1 [r - l, lo - u] ∧
      pyFormatSelect 0 [r - l, lo - u] = some (r - l) ∧
      pyFormatSelect 1 [r - l, lo - u] = some (lo - u) := by
  obtain ⟨s2, im2, h1, h2, h3, h4, h5⟩ :=
    crop_box_spec s im l u r lo b0 b1 b2 b3 hwf hbb hbh hxh hbr
  exact ⟨s2, im2, h1, by rw [h4], by rw [h4], rfl, rfl⟩

/-- C3 amended witness: on the demo crop the width attribute is `50` and the
height attribute is `100`. -/
theorem crop_attr_format_semantics_witness :
    cropWidthAttrAt demoImage (some (0, 0, 50, 100)) demoStore = some (some 50) ∧
    cropHeightAttrAt demoImage (some (0, 0, 50, 100)) demoStore = some (some 100) := by
  obtain ⟨s2, im2, h1, h2, h3, h4, h5⟩ :=
    crop_attr_format_semantics demoStore demoImage 0 0 50 100 0 0 100 100
      (by decide) rfl (by norm_num) (by norm_num) (Or.inr (by norm_num))
  unfold cropWidthAttrAt cropHeightAttrAt
  rw [h1]
  constructor
  · show some (Store.get s2 im2.canvas.svgId).widthAttr = some (some 50)
    rw [h2, h4]
    norm_num
  · show some (Store.get s2 im2.canvas.svgId).heightAttr = some (some 100)
    rw [h3, h5]
    norm_num

/-- C4 counterexample: the constructor's assertion checks only that `size` is
a two-element numeric pair, not positivity — `Image(size=(0, 0))` succeeds
and produces a handle whose dimensions are not strictly positive. -/
theorem size_positivity_counterexample :
    initSizeAt (.tup [0, 0]) ⟨[]⟩ = some (0, 0) ∧ ¬ ((0:ℚ) < 0 ∧ (0:ℚ) < 0) := by
  constructor
  · rfl
  · norm_num

/-- C4 amended: every produced handle's size is a pair of two numbers (the
constructor's assertion enforces exactly that shape): `construct` and
`resize` return the pair they were given, and `crop(box)` returns
`(box[2] - box[0], box[3] - box[1])` — which is strictly positive exactly
when the box is properly ordered (`left < right` and `upper < lower`);
strict positivity itself is neither checked nor preserved. -/
theorem size_two_dimensions_not_positivity (w h : ℚ) (sz : ℚ × ℚ) (s0 : Store) (im0 : Image)
    (s : Store) (im : Image) (l u r lo b0 b1 b2 b3 : ℚ)
    (hwf : im.canvas.svgId < s.docs.length)
    (hbb : Image.getbbox im s = [b0, b1, b2, b3])
    (hbh : b3 - b1 ≠ 0) (hxh : lo - u ≠ 0)
    (hbr : (r - l) / (lo - u) ≠ 0 ∨ (b2 - b0) / (b3 - b1) > (r - l) / (lo - u)) :
    (Image.construct (w, h) s0).2.size = (w, h) ∧
    (Image.resize im0 sz s0).2.size = sz ∧
    ∃ s2 im2, Image.crop im (some (l, u, r, lo)) s = .ok (s2, im2) ∧
      im2.size = (r - l, lo - u) ∧
      ((0 < im2.size.1 ∧ 0 < im2.size.2) ↔ (l < r ∧ u < lo)) := by
  refine ⟨rfl, rfl, ?_⟩
  obtain ⟨s2, im2, h1, h2, h3, h4, h5⟩ :=
    crop_box_spec s im l u r lo b0 b1 b2 b3 hwf hbb hbh hxh hbr
  refine ⟨s2, im2, h1, h2, ?_⟩
  rw [h2]
  simp [sub_pos]

/-- C4 amended witness: construction with `(10, 20)` gives size `(10, 20)`,
and the demo crop gives size `(50, 100)`, positive since the box is
properly ordered. -/
theorem size_two_dimensions_witness :
    (Image.construct (10, 20) ⟨[]⟩).2.size = (10, 20) ∧
    cropSizeAt demoImage (some (0, 0, 50, 100)) demoStore = some (50, 100) ∧
    ((0:ℚ) < 50 ∧ (0:ℚ) < 100) := by
  obtain ⟨hc, hr, s2, im2, h1, h2, h3⟩ :=
    size_two_dimensions_not_positivity 10 20 (30, 40) ⟨[]⟩ demoImage
      demoStore demoImage 0 0 50 100 0 0 100 100
      (by decide) rfl (by norm_num) (by norm_num) (Or.inr (by norm_num))
  refine ⟨hc, ?_, by norm_num⟩
  unfold cropSizeAt
  rw [h1]
  show some im2.size = some (50, 100)
  rw [h2]
  norm_num

/-- C5: `load(fp, mode)` raises `ValueError` whenever `mode` is not `'r'`;
with `mode = 'r'` it raises `ValueError` for a `StringIO` source and
`RuntimeError` for a source that is neither a path string nor a path
object. -/
theorem load_error_handling (svg2rlg : String → Option Drawing)
    (resolve : String → String) (fp : LoadFp) (mode : String) (s : Store) :
    (mode ≠ "r" → load svg2rlg resolve fp mode s = .error .valueError) ∧
    (load svg2rlg resolve .stringBuf "r" s = .error .valueError) ∧
    (load svg2rlg resolve .otherObj "r" s = .error .runtimeError) := by
  refine ⟨fun hm => ?_, ?_, ?_⟩ <;> simp [load, *]

/-- C5 witness: `load(fp, mode='w')` raises `ValueError`;
`load(StringIO(...))` raises `ValueError`; `load(42)` raises
`RuntimeError`. -/
theorem load_error_handling_witness :
    load (fun _ => none) (fun p => p) (.strPath "a.svg") "w" ⟨[]⟩ = .error .valueError ∧
    load (fun _ => none) (fun p => p) .stringBuf "r" ⟨[]⟩ = .error .valueError ∧
    load (fun _ => none) (fun p => p) .otherObj "r" ⟨[]⟩ = .error .runtimeError := by
  obtain ⟨h1, h2, h3⟩ :=
    load_error_handling (fun _ => none) (fun p => p) (.strPath "a.svg") "w" ⟨[]⟩
  exact ⟨h1 (by decide), h2, h3⟩

/-- C6: for every valid path source, `load` invokes the external SVG parser
on the derived filename; when parsing yields nothing, `load` returns nothing
(and no handle is allocated); otherwise it returns a handle whose size is the
parsed drawing's declared width/height, with the drawing rendered onto the
handle's canvas. -/
theorem load_parser_semantics (svg2rlg : String → Option Drawing)
    (resolve : String → String) (s : Store) (fp : LoadFp) (fname : String)
    (hf : fp = .strPath fname ∨ ∃ p, fp = .pathObj p ∧ resolve p = fname) :
    (svg2rlg fname = none → load svg2rlg resolve fp "r" s = .ok (s, none)) ∧
    (∀ dr, svg2rlg fname = some dr →
      ∃ s1 im, load svg2rlg resolve fp "r" s = .ok (s1, some im) ∧
        im.size = (dr.width, dr.height) ∧
        im.canvas.rendered = some dr) := by
  have hload : load svg2rlg resolve fp "r" s = loadFromFile svg2rlg fname s := by
    rcases hf with hf | ⟨p, hf, hres⟩
    · subst hf
      simp [load]
    · subst hf
      simp [load, hres]
  constructor
  · intro hparse
    rw [hload]
    simp [loadFromFile, hparse]
  · intro dr hparse
    refine ⟨⟨s.docs ++ [blankDoc (dr.width, dr.height)]⟩,
      { size := (dr.width, dr.height),
        canvas := { svgId := s.docs.length, fillColor := none, rendered := some dr } },
      ?_, rfl, rfl⟩
    rw [hload]
    simp [loadFromFile, hparse, Image.construct, Store.alloc]

/-- C6 witness: when the parser cannot decode `"a.svg"`, `load` returns
nothing; when it yields a drawing of declared size `5 × 7`, `load` returns a
handle of size `(5, 7)` with that drawing rendered. -/
theorem load_parser_semantics_witness :
    loadResultAt (fun _ => none) (fun p => p) (.strPath "a.svg") "r" ⟨[]⟩ = some none ∧
    loadResultAt (fun _ => some ⟨5, 7⟩) (fun p => p) (.strPath "a.svg") "r" ⟨[]⟩ =
      some (some ((5, 7), some ⟨5, 7⟩)) := by
  obtain ⟨h1, _⟩ :=
    load_parser_semantics (fun _ => none) (fun p => p) ⟨[]⟩ (.strPath "a.svg") "a.svg"
      (Or.inl rfl)
  obtain ⟨_, h2⟩ :=
    load_parser_semantics (fun _ => some ⟨5, 7⟩) (fun p => p) ⟨[]⟩ (.strPath "a.svg") "a.svg"
      (Or.inl rfl)
  constructor
  · unfold loadResultAt
    rw [h1 rfl]
    rfl
  · obtain ⟨s1, im, hok, hsz, hrd⟩ := h2 ⟨5, 7⟩ rfl
    unfold loadResultAt
    rw [hok]
    show some (some (im.size, im.canvas.rendered)) = some (some ((5, 7), some ⟨5, 7⟩))
    rw [hsz, hrd]

/-- C7: `save(fp, format)` raises `ValueError` exactly when neither an
explicit `format = 'SVG'` nor a (case-insensitive) `.svg` suffix of the
derived filename — the path itself, or the file object's `name` — is present;
otherwise it serializes the document as XML, opening the path for binary
write when a path was given. -/
theorem save_format_validation (im : Image) (fp : SaveFp) (format : Option String) :
    (Image.save im fp format = .error .valueError ↔
      (format ≠ some "SVG" ∧ pyLower (pathSuffix (saveFilename fp)) ≠ ".svg")) ∧
    ((format = some "SVG" ∨ pyLower (pathSuffix (saveFilename fp)) = ".svg") →
      Image.save im fp format =
        .ok { openedBinary := if saveOpensPath fp then some (saveFilename fp) else none,
              wroteDoc := im.canvas.svgId }) := by
  constructor
  · by_cases hcond : format ≠ some "SVG" ∧ pyLower (pathSuffix (saveFilename fp)) ≠ ".svg"
    · simp [Image.save, hcond]
    · simp only [Image.save, if_neg hcond]
      simp [hcond]
  · intro hok
    have hcond : ¬ (format ≠ some "SVG" ∧ pyLower (pathSuffix (saveFilename fp)) ≠ ".svg") := by
      rcases hok with hok | hok <;> simp [hok]
    simp [Image.save, hcond]

/-- C7 witness: saving to the path `"out.svg"` without a format succeeds,
opening that path for binary write; saving to a file object named
`"pic.png"` without a format raises `ValueError`. -/
theorem save_format_validation_witness :
    Image.save demoImage (.pathStr "out.svg") none =
      .ok { openedBinary := some "out.svg", wroteDoc := 0 } ∧
    Image.save demoImage (.fileObj (some "pic.png")) none = .error .valueError := by
  obtain ⟨_, hok⟩ := save_format_validation demoImage (.pathStr "out.svg") none
  obtain ⟨hiff, _⟩ := save_format_validation demoImage (.fileObj (some "pic.png")) none
  constructor
  · have := hok (Or.inr (by decide))
    simpa [saveOpensPath, saveFilename, demoImage] using this
  · exact hiff.mpr ⟨by decide, by decide⟩

/-- C8: `close()` never raises — every error in the `try:` body (a missing or
`None` `fp` attribute, a failing file close, a raising `_close__fp` hook) is
caught and discarded —, the internal content references `map` and `im` are
cleared, and calling `close` again on the result does not raise either. -/
theorem close_never_raises_and_idempotent (st : CloseState) :
    ∃ st1, Image.close st = .ok st1 ∧ st1.map = .pyNone ∧ st1.im = .pyNone ∧
      ∃ st2, Image.close st1 = .ok st2 ∧ st2.map = .pyNone ∧ st2.im = .pyNone :=
  ⟨_, rfl, rfl, rfl, _, rfl, rfl, rfl⟩

/-- C9: `resize` returns a handle of the requested size whose document is a
deep clone of the source's, living at a fresh store index; mutating the
derived handle's document leaves the source handle's document exactly as it
was; and every successful `crop` likewise returns a handle owning a fresh
clone, leaving the source handle's document untouched. -/
theorem resize_crop_clone_independence (s : Store) (im : Image) (sz : ℚ × ℚ)
    (hwf : im.canvas.svgId < s.docs.length) :
    ((Image.resize im sz s).2.size = sz) ∧
    ((Image.resize im sz s).2.canvas.svgId ≠ im.canvas.svgId) ∧
    (Store.get (Image.resize im sz s).1 (Image.resize im sz s).2.canvas.svgId =
      Store.get s im.canvas.svgId) ∧
    (∀ d : SvgDoc,
      Store.get
        (Store.set (Image.resize im sz s).1 (Image.resize im sz s).2.canvas.svgId d)
        im.canvas.svgId = Store.get s im.canvas.svgId) ∧
    (∀ box s2 im2, Image.crop im box s = .ok (s2, im2) →
      im2.canvas.svgId ≠ im.canvas.svgId ∧
      Store.get s2 im.canvas.svgId = Store.get s im.canvas.svgId) := by
  refine ⟨rfl, ?_, ?_, ?_, ?_⟩
  · simp only [Image.resize, Image.construct, cloneNode, Store.alloc]
    simp only [List.length_append, List.length_singleton]
    omega
  · simp only [Image.resize, Image.construct, cloneNode, Store.alloc]
    rw [Store.get_mk_append_self, Store.get_mk_append_of_lt s _ hwf]
  · intro d
    simp only [Image.resize, Image.construct, cloneNode, Store.alloc]
    have hne : (s.docs ++ [blankDoc sz]).length ≠ im.canvas.svgId := by
      simp only [List.length_append, List.length_singleton]
      omega
    rw [Store.get_set_ne _ hne, List.append_assoc, Store.get_mk_append_of_lt s _ hwf]
  · intro box s2 im2 hok
    obtain ⟨hid, hpres⟩ := crop_ok_source_untouched im box s s2 im2 hok
    exact ⟨by omega, hpres _ hwf⟩

/-- C9 witness: resizing the demo handle to `(30, 40)` gives that size, and
overwriting the derived handle's document leaves the demo handle's document
unchanged. -/
theorem resize_crop_clone_independence_witness :
    (Image.resize demoImage (30, 40) demoStore).2.size = (30, 40) ∧
    Store.get
      (Store.set (Image.resize demoImage (30, 40) demoStore).1
        (Image.resize demoImage (30, 40) demoStore).2.canvas.svgId default)
      demoImage.canvas.svgId = Store.get demoStore demoImage.canvas.svgId := by
  obtain ⟨h1, h2, h3, h4, h5⟩ :=
    resize_crop_clone_independence demoStore demoImage (30, 40) (by decide)
  exact ⟨h1, h4 default⟩

/-- C10 counterexample: a handle whose bounding box is `(0, 0, 0, 100)` —
nonzero bounding-box height — cropped with box `(0, 0, 0, 100)` — nonzero
box height `box[3] - box[1] = 100` — still raises `ZeroDivisionError`: the
requested aspect ratio is `0`, the shrink-height branch is taken, and
`bbox[2] / wanted_aspect_ratio` divides by zero. -/
theorem crop_division_by_zero_counterexample :
    Image.getbbox degenImage degenStore = [0, 0, 0, 100] ∧
    ((100:ℚ) - 0 ≠ 0) ∧
    Image.crop degenImage (some (0, 0, 0, 100)) degenStore = .error .zeroDivisionError := by
  refine ⟨rfl, by norm_num, ?_⟩
  norm_num [Image.crop, Image.construct, cloneNode, Store.alloc, Store.get, Image.getbbox,
    blankDoc, cropBBox, pydiv, bind, Except.bind, degenStore, degenImage]

/-- C10 amended: when the bounding box's height is nonzero, the box's height
`box[3] - box[1]` is nonzero, and additionally the box's width
`box[2] - box[0]` is nonzero, no division by zero occurs and `crop` succeeds;
and calling `crop` with a box whose lower bound equals its upper bound fails
with `ZeroDivisionError` before any new handle is returned. -/
theorem crop_division_safety (s : Store) (im : Image) (l u r lo b0 b1 b2 b3 : ℚ)
    (hwf : im.canvas.svgId < s.docs.length)
    (hbb : Image.getbbox im s = [b0, b1, b2, b3]) :
    (b3 - b1 ≠ 0 → lo - u ≠ 0 → r - l ≠ 0 →
      ∃ s2 im2, Image.crop im (some (l, u, r, lo)) s = .ok (s2, im2)) ∧
    (lo = u → Image.crop im (some (l, u, r, lo)) s = .error .zeroDivisionError) := by
  constructor
  · intro hbh hxh hrl
    obtain ⟨s2, im2, h1, _⟩ :=
      crop_box_spec s im l u r lo b0 b1 b2 b3 hwf hbb hbh hxh
        (Or.inl (div_ne_zero hrl hxh))
    exact ⟨s2, im2, h1⟩
  · intro hlo
    have hwf1 : im.canvas.svgId < (Store.mk (s.docs ++ [blankDoc im.size])).docs.length := by
      simp only [List.length_append, List.length_singleton]
      omega
    simp only [Image.crop, Image.construct, cloneNode, Store.alloc]
    rw [getbbox_mk_append im ⟨s.docs ++ [blankDoc im.size]⟩ _ hwf1,
      getbbox_mk_append im s _ hwf, hbb]
    rw [show ([b0, b1, b2, b3] : List ℚ) = b0 :: b1 :: b2 :: b3 :: [] from rfl,
      cropBBox_zero_box_height l u r lo b0 b1 b2 b3 (by rw [hlo, sub_self]) []]
    rfl

/-- C10 amended witness: the demo crop with box `(0, 0, 50, 100)` (all three
differences nonzero) succeeds, while box `(0, 5, 50, 5)` (lower equals upper)
raises `ZeroDivisionError`. -/
theorem crop_division_safety_witness :
    (cropSizeAt demoImage (some (0, 0, 50, 100)) demoStore).isSome = true ∧
    Image.crop demoImage (some (0, 5, 50, 5)) demoStore = .error .zeroDivisionError := by
  obtain ⟨h1, _⟩ :=
    crop_division_safety demoStore demoImage 0 0 50 100 0 0 100 100 (by decide) rfl
  obtain ⟨_, h2⟩ :=
    crop_division_safety demoStore demoImage 0 5 50 5 0 0 100 100 (by decide) rfl
  constructor
  · obtain ⟨s2, im2, hok⟩ := h1 (by norm_num) (by norm_num) (by norm_num)
    unfold cropSizeAt
    rw [hok]
    rfl
  · exact h2 rfl

end VIL
